import Mathlib

/-!
Shallow embedding of the server-lifecycle supervision code of
`src/actions.py`: the port allocator `find_available_port`, the launcher and
log-tailing poller `start_action_server`, the remote shutdown client
`stop_action_server`, and the shell wrapper `run_shell_command`.

External effects are made explicit: the operating system and the spawned
child are an environment (`Env`) supplying path existence, a port-freeness
oracle, the log-file contents observed at each poll tick, and the child's
captured stdout/stderr; process spawns and shutdown requests are recorded as
an event trace. The unbounded `while True` port-scan loop is modelled with
fuel: `none` models divergence of the loop.
-/

namespace ActionsBootstrapper

/-- Python `sub` being a leading piece of the character list `l`. -/
def startsWithList : List Char → List Char → Bool
  | [], _ => true
  | _ :: _, [] => false
  | a :: as, b :: bs => a == b && startsWithList as bs

/-- Python substring containment `sub in l` on character lists. -/
def hasSubList (sub : List Char) : List Char → Bool
  | [] => startsWithList sub []
  | c :: cs => startsWithList sub (c :: cs) || hasSubList sub cs

/-- Python `sub in s` for strings: `s` contains `sub` as a substring. -/
def strHasSub (s sub : String) : Bool :=
  hasSubList sub.data s.data

/-- The error marker scanned for in the log (actions.py line 527). -/
def errorMarker : String := "Error executing action-server"

/-- Success message returned by the poller (actions.py line 526). -/
def successMessage (url : String) : String :=
  "Action Server started at " ++ url

/-- Failure message returned when the error marker is seen (line 539). -/
def failedMessage (stdoutContent stderrContent : String) : String :=
  "Failed to start.\n\nStdout:\n" ++ stdoutContent ++ "\n\nStderr:\n" ++ stderrContent

/-- Timeout message returned when the deadline passes (line 519). -/
def timeoutMessage (stdoutContent stderrContent : String) : String :=
  "Process timed out.\n\nStdout:\n" ++ stdoutContent ++ "\n\nStderr:\n" ++ stderrContent

/-- Outcome of scanning the log lines on one poll tick. -/
inductive ScanResult where
  | noHit
  | urlHit
  | errHit
deriving DecidableEq

/-- The `for line in lines` scan of actions.py lines 523-539: per line, the
URL check comes first, then the error-marker check; the first hit wins. -/
def scanLogLines (url : String) : List String → ScanResult
  | [] => ScanResult.noHit
  | line :: rest =>
    if strHasSub line url then ScanResult.urlHit
    else if strHasSub line errorMarker then ScanResult.errHit
    else scanLogLines url rest

/-- Observable side effects of the supervision flow: a subprocess spawn with
its argv, and a shutdown POST against a URL. -/
inductive Event where
  | spawn (args : List String)
  | stopRequest (url : String)
deriving DecidableEq

/-- The poll loop of actions.py lines 509-542. Each element of the list is
the log state seen on one tick before the 60-second deadline (`none` when
`log_path.exists()` is false); exhausting the list models the deadline
passing, which issues one shutdown request and returns the timeout message. -/
def pollForServer (url stdoutContent stderrContent : String) :
    List (Option (List String)) → String × List Event
  | [] => (timeoutMessage stdoutContent stderrContent, [Event.stopRequest url])
  | snap :: rest =>
    match snap with
    | none => pollForServer url stdoutContent stderrContent rest
    | some lines =>
      match scanLogLines url lines with
      | ScanResult.urlHit => (successMessage url, [])
      | ScanResult.errHit => (failedMessage stdoutContent stderrContent, [])
      | ScanResult.noHit => pollForServer url stdoutContent stderrContent rest

/-- `os.path.join` for the relative components the source joins. -/
def joinPath (a b : String) : String := a ++ "/" ++ b

/-- actions.py lines 372-379: home, then "actions_bootstrapper", then name. -/
def get_action_package_path (home actionPackageName : String) : String :=
  joinPath (joinPath home "actions_bootstrapper") actionPackageName

/-- actions.py lines 361-369, with the OS bind test abstracted as the oracle
`free` and the unbounded `while True` given fuel; `none` models the loop
running forever. Each iteration tries the current port and moves to the next. -/
def find_available_port (free : Nat → Bool) : Nat → Nat → Option Nat
  | 0, _ => none
  | fuel + 1, port => if free port then some port else find_available_port free fuel (port + 1)

/-- The environment a run of `start_action_server` observes: the home
directory, whether the package path exists, the interpreter and script
location, the port-freeness oracle with the fuel the scan is allowed, the log
contents at each poll tick, and the child's captured output streams. -/
structure Env where
  home : String
  pathExists : Bool
  pyExecutable : String
  scriptDir : String
  portFree : Nat → Bool
  portFuel : Nat
  logSnapshots : List (Option (List String))
  stdoutContent : String
  stderrContent : String

/-- actions.py lines 456-542: validate the package path, pick a port, spawn
the helper with (directory, port, secrets) as positional arguments, then poll
the log. Returns the message and the trace of spawn/shutdown events; `none`
models the port scan never terminating. -/
def start_action_server (env : Env) (actionPackageName secrets : String) :
    Option (String × List Event) :=
  let fullActionPath := get_action_package_path env.home actionPackageName
  if env.pathExists then
    match find_available_port env.portFree env.portFuel 8080 with
    | none => none
    | some availablePort =>
      let url := "http://localhost:" ++ toString availablePort
      let startCommand := [env.pyExecutable,
        joinPath env.scriptDir "start_action_server.py",
        fullActionPath, toString availablePort, secrets]
      let polled := pollForServer url env.stdoutContent env.stderrContent env.logSnapshots
      some (polled.1, Event.spawn startCommand :: polled.2)
  else
    some ("Action package '" ++ fullActionPath ++ "' does not exist.", [])

/-- What the HTTP POST of `stop_action_server` can come back with: the
urllib3 ConnectionError the source catches, or a response with a status. -/
inductive NetOutcome where
  | connectionFailure
  | httpResponse (statusCode : Nat) (text : String)

/-- actions.py lines 545-574: POST to the shutdown endpoint, mapping a
connection failure and the status code to the three messages. -/
def stop_action_server (net : String → NetOutcome) (actionServerUrl : String) : String :=
  match net (actionServerUrl ++ "/api/shutdown") with
  | NetOutcome.connectionFailure => "Could not connect to the server"
  | NetOutcome.httpResponse statusCode _ =>
    if statusCode == 200 then "Successfully shutdown the action server"
    else "Failed to stop the action server"

/-- The fields of `subprocess.run`'s result that lines 36-44 consume. -/
structure CompletedProcess where
  returncode : Int
  stdout : String
  stderr : String

/-- The result envelope of the action framework, as lines 44 and 70-73 use it. -/
structure Response where
  result : Option String
  error : Option String
deriving DecidableEq

/-- Line 38: stdout + stderr when stderr is non-empty, else stdout alone. -/
def combinedOutput (res : CompletedProcess) : String :=
  if res.stderr ≠ "" then res.stdout ++ res.stderr else res.stdout

/-- `result.check_returncode()`: raises CalledProcessError on a non-zero code. -/
def check_returncode (res : CompletedProcess) : Except String Unit :=
  if res.returncode ≠ 0 then Except.error "CalledProcessError" else Except.ok ()

/-- actions.py lines 22-44: run the command, combine the streams, and catch
the CalledProcessError inside (both branches fall through to the return). -/
def run_shell_command (res : CompletedProcess) : Response :=
  let output := combinedOutput res
  match check_returncode res with
  | Except.error _ => { result := some output, error := none }
  | Except.ok _ => { result := some output, error := none }

/-- A concrete environment with the package directory present, port 8080
free, and an empty log: used to instantiate universally quantified results. -/
def sampleEnvReady : Env where
  home := "/home/u"
  pathExists := true
  pyExecutable := "python"
  scriptDir := "/srv"
  portFree := fun _ => true
  portFuel := 1
  logSnapshots := []
  stdoutContent := ""
  stderrContent := ""

/-- A concrete environment whose second poll tick sees a log ending in a
line that carries the chosen URL. -/
def sampleEnvUrl : Env where
  home := "/home/u"
  pathExists := true
  pyExecutable := "python"
  scriptDir := "/srv"
  portFree := fun _ => true
  portFuel := 1
  logSnapshots := [none, some ["boot", "Action Server at http://localhost:8080"]]
  stdoutContent := ""
  stderrContent := ""

/-- A concrete environment whose log gains the error marker and only later a
line with the URL. -/
def sampleEnvErr : Env where
  home := "/home/u"
  pathExists := true
  pyExecutable := "python"
  scriptDir := "/srv"
  portFree := fun _ => true
  portFuel := 1
  logSnapshots := [some ["boot"],
    some ["boot", "Error executing action-server",
      "Action Server at http://localhost:8080"]]
  stdoutContent := "so"
  stderrContent := "se"

/-- A concrete environment whose log never shows either marker. -/
def sampleEnvQuiet : Env where
  home := "/home/u"
  pathExists := true
  pyExecutable := "python"
  scriptDir := "/srv"
  portFree := fun _ => true
  portFuel := 1
  logSnapshots := [none, some ["warming up"]]
  stdoutContent := "so"
  stderrContent := "se"

/-- Scanning hits the URL when some line contains the URL and no earlier line
contains the error marker (lines before the URL line may themselves contain
the URL: the result is the same). -/
theorem scanLogLines_urlHit (url : String) (pre : List String) (line : String)
    (post : List String) (hline : strHasSub line url = true)
    (hpre : ∀ l ∈ pre, strHasSub l errorMarker = false) :
    scanLogLines url (pre ++ line :: post) = ScanResult.urlHit := by
  induction pre with
  | nil => simp [scanLogLines, hline]
  | cons p ps ih =>
    have hp := hpre p (by simp)
    by_cases hu : strHasSub p url = true
    · simp [scanLogLines, hu]
    · have hu' : strHasSub p url = false := by simpa using hu
      simp only [List.cons_append, scanLogLines, hu', hp, Bool.false_eq_true, if_false]
      exact ih (fun l hl => hpre l (by simp [hl]))

/-- Scanning hits the error marker when some line contains it and no line up
to and including that one contains the URL (earlier lines may contain the
error marker too: the result is the same). -/
theorem scanLogLines_errHit (url : String) (pre : List String) (line : String)
    (post : List String) (herr : strHasSub line errorMarker = true)
    (hnu : strHasSub line url = false)
    (hpre : ∀ l ∈ pre, strHasSub l url = false) :
    scanLogLines url (pre ++ line :: post) = ScanResult.errHit := by
  induction pre with
  | nil => simp [scanLogLines, hnu, herr]
  | cons p ps ih =>
    have hp := hpre p (by simp)
    by_cases he : strHasSub p errorMarker = true
    · simp [scanLogLines, hp, he]
    · have he' : strHasSub p errorMarker = false := by simpa using he
      simp only [List.cons_append, scanLogLines, hp, he', Bool.false_eq_true, if_false]
      exact ih (fun l hl => hpre l (by simp [hl]))

/-- Scanning finds nothing when no line contains either marker. -/
theorem scanLogLines_noHit (url : String) (L : List String)
    (h : ∀ l ∈ L, strHasSub l url = false ∧ strHasSub l errorMarker = false) :
    scanLogLines url L = ScanResult.noHit := by
  induction L with
  | nil => rfl
  | cons p ps ih =>
    obtain ⟨h1, h2⟩ := h p (by simp)
    simp only [scanLogLines, h1, h2, Bool.false_eq_true, if_false]
    exact ih (fun l hl => h l (by simp [hl]))

/-- On any earlier (shorter) view of a log whose first error-marker-free
span ends in a URL line, the scan cannot hit the error marker. -/
theorem scanLogLines_early_not_errHit (url : String) (pre : List String)
    (line : String) (post : List String) (hline : strHasSub line url = true)
    (hpre : ∀ l ∈ pre, strHasSub l errorMarker = false) :
    ∀ l' rest, pre ++ line :: post = l' ++ rest →
      scanLogLines url l' ≠ ScanResult.errHit := by
  induction pre with
  | nil =>
    intro l' rest heq
    cases l' with
    | nil => simp [scanLogLines]
    | cons a t =>
      simp only [List.nil_append, List.cons_append, List.cons.injEq] at heq
      obtain ⟨ha, -⟩ := heq
      subst ha
      simp [scanLogLines, hline]
  | cons p ps ih =>
    intro l' rest heq
    cases l' with
    | nil => simp [scanLogLines]
    | cons a t =>
      simp only [List.cons_append, List.cons.injEq] at heq
      obtain ⟨ha, htail⟩ := heq
      subst ha
      by_cases hu : strHasSub p url = true
      · simp [scanLogLines, hu]
      · have hu' : strHasSub p url = false := by simpa using hu
        have hp := hpre p (by simp)
        simp only [scanLogLines, hu', hp, Bool.false_eq_true, if_false]
        exact ih (fun l hl => hpre l (by simp [hl])) t rest htail

/-- On any earlier (shorter) view of a log whose first URL-free span ends in
an error-marker line with no URL in it, the scan cannot hit the URL. -/
theorem scanLogLines_early_not_urlHit (url : String) (pre : List String)
    (line : String) (post : List String) (herr : strHasSub line errorMarker = true)
    (hnu : strHasSub line url = false)
    (hpre : ∀ l ∈ pre, strHasSub l url = false) :
    ∀ l' rest, pre ++ line :: post = l' ++ rest →
      scanLogLines url l' ≠ ScanResult.urlHit := by
  induction pre with
  | nil =>
    intro l' rest heq
    cases l' with
    | nil => simp [scanLogLines]
    | cons a t =>
      simp only [List.nil_append, List.cons_append, List.cons.injEq] at heq
      obtain ⟨ha, -⟩ := heq
      subst ha
      simp [scanLogLines, hnu, herr]
  | cons p ps ih =>
    intro l' rest heq
    cases l' with
    | nil => simp [scanLogLines]
    | cons a t =>
      simp only [List.cons_append, List.cons.injEq] at heq
      obtain ⟨ha, htail⟩ := heq
      subst ha
      have hp := hpre p (by simp)
      by_cases he : strHasSub p errorMarker = true
      · simp [scanLogLines, hp, he]
      · have he' : strHasSub p errorMarker = false := by simpa using he
        simp only [scanLogLines, hp, he', Bool.false_eq_true, if_false]
        exact ih (fun l hl => hpre l (by simp [hl])) t rest htail

/-- The poller returns the success message once some tick's scan hits the
URL and no earlier tick's scan hits the error marker. -/
theorem pollForServer_success (url so se : String) (L : List String)
    (snaps1 snaps2 : List (Option (List String)))
    (hL : scanLogLines url L = ScanResult.urlHit)
    (hpre : ∀ l', some l' ∈ snaps1 → scanLogLines url l' ≠ ScanResult.errHit) :
    pollForServer url so se (snaps1 ++ some L :: snaps2) = (successMessage url, []) := by
  induction snaps1 with
  | nil => simp [pollForServer, hL]
  | cons s rest ih =>
    cases s with
    | none =>
      simp only [List.cons_append, pollForServer]
      exact ih (fun l' hl' => hpre l' (by simp [hl']))
    | some l' =>
      have hne := hpre l' (by simp)
      simp only [List.cons_append, pollForServer]
      cases hsc : scanLogLines url l' with
      | urlHit => rfl
      | errHit => exact absurd hsc hne
      | noHit => exact ih (fun x hx => hpre x (by simp [hx]))

/-- The poller returns the startup-failure message once some tick's scan
hits the error marker and no earlier tick's scan hits the URL. -/
theorem pollForServer_failed (url so se : String) (L : List String)
    (snaps1 snaps2 : List (Option (List String)))
    (hL : scanLogLines url L = ScanResult.errHit)
    (hpre : ∀ l', some l' ∈ snaps1 → scanLogLines url l' ≠ ScanResult.urlHit) :
    pollForServer url so se (snaps1 ++ some L :: snaps2) = (failedMessage so se, []) := by
  induction snaps1 with
  | nil => simp [pollForServer, hL]
  | cons s rest ih =>
    cases s with
    | none =>
      simp only [List.cons_append, pollForServer]
      exact ih (fun l' hl' => hpre l' (by simp [hl']))
    | some l' =>
      have hne := hpre l' (by simp)
      simp only [List.cons_append, pollForServer]
      cases hsc : scanLogLines url l' with
      | urlHit => exact absurd hsc hne
      | errHit => rfl
      | noHit => exact ih (fun x hx => hpre x (by simp [hx]))

/-- When no tick's scan hits anything, the poller reaches the deadline,
requests one shutdown, and returns the timeout message. -/
theorem pollForServer_timeout (url so se : String)
    (snaps : List (Option (List String)))
    (h : ∀ l', some l' ∈ snaps → scanLogLines url l' = ScanResult.noHit) :
    pollForServer url so se snaps = (timeoutMessage so se, [Event.stopRequest url]) := by
  induction snaps with
  | nil => rfl
  | cons s rest ih =>
    cases s with
    | none =>
      simp only [pollForServer]
      exact ih (fun l' hl' => h l' (by simp [hl']))
    | some l' =>
      have hs := h l' (by simp)
      simp only [pollForServer, hs]
      exact ih (fun x hx => h x (by simp [hx]))

/-- A port the fuelled scan returns is at least the start, free, and all
ports from the start up to it are bound. -/
theorem find_available_port_sound (free : Nat → Bool) :
    ∀ fuel start q, find_available_port free fuel start = some q →
      start ≤ q ∧ free q = true ∧ ∀ p, start ≤ p → p < q → free p = false := by
  intro fuel
  induction fuel with
  | zero => intro start q h; simp [find_available_port] at h
  | succ n ih =>
    intro start q h
    by_cases hf : free start = true
    · simp [find_available_port, hf] at h
      subst h
      exact ⟨le_refl _, hf, fun p hp1 hp2 => absurd hp1 (not_le.mpr hp2)⟩
    · have hf' : free start = false := by simpa using hf
      simp only [find_available_port, hf', Bool.false_eq_true, if_false] at h
      obtain ⟨h1, h2, h3⟩ := ih (start + 1) q h
      refine ⟨by omega, h2, fun p hp1 hp2 => ?_⟩
      rcases Nat.eq_or_lt_of_le hp1 with he | hl
      · rw [← he]; exact hf'
      · exact h3 p (by omega) hp2

/-- When some port at distance below the fuel is free, the fuelled scan
returns a port. -/
theorem find_available_port_complete (free : Nat → Bool) :
    ∀ fuel start d, d < fuel → free (start + d) = true →
      ∃ q, find_available_port free fuel start = some q := by
  intro fuel
  induction fuel with
  | zero => intro start d hd _; omega
  | succ n ih =>
    intro start d hd hfree
    by_cases hf : free start = true
    · exact ⟨start, by simp [find_available_port, hf]⟩
    · have hf' : free start = false := by simpa using hf
      have hd0 : d ≠ 0 := by
        rintro rfl
        rw [Nat.add_zero] at hfree
        rw [hf'] at hfree
        exact Bool.false_ne_true hfree
      obtain ⟨q, hq⟩ := ih (start + 1) (d - 1) (by omega)
        (by rw [show start + 1 + (d - 1) = start + d by omega]; exact hfree)
      exact ⟨q, by simp [find_available_port, hf', hq]⟩

/-- When every port from the start on is bound, no amount of fuel makes the
scan return: the source loop runs forever. -/
theorem find_available_port_stuck (free : Nat → Bool) :
    ∀ fuel start, (∀ p, start ≤ p → free p = false) →
      find_available_port free fuel start = none := by
  intro fuel
  induction fuel with
  | zero => intro start _; rfl
  | succ n ih =>
    intro start h
    simp only [find_available_port, h start (le_refl _), Bool.false_eq_true, if_false]
    exact ih (start + 1) (fun p hp => h p (by omega))

/-- C1: when the resolved action-package directory does not exist,
`start_action_server` returns the precondition-failure message naming the
path, and the event trace is empty: no subprocess is spawned, and neither the
port scan nor the poller is reached (the result does not depend on the
port oracle, the fuel, or the log). -/
theorem c1_missing_directory_no_spawn (env : Env) (name secrets : String)
    (h : env.pathExists = false) :
    start_action_server env name secrets =
      some ("Action package '" ++ get_action_package_path env.home name ++
        "' does not exist.", []) := by
  simp [start_action_server, h]

/-- C1 witness: a concrete environment whose package path is absent. -/
theorem c1_missing_directory_no_spawn_witness :
    start_action_server
      { home := "/home/u", pathExists := false, pyExecutable := "python",
        scriptDir := "/srv", portFree := fun _ => false, portFuel := 0,
        logSnapshots := [], stdoutContent := "", stderrContent := "" }
      "pkg" "{}" =
      some ("Action package '/home/u/actions_bootstrapper/pkg' does not exist.", []) := by
  have h := c1_missing_directory_no_spawn
    { home := "/home/u", pathExists := false, pyExecutable := "python",
      scriptDir := "/srv", portFree := fun _ => false, portFuel := 0,
      logSnapshots := [], stdoutContent := "", stderrContent := "" }
    "pkg" "{}" rfl
  exact h.trans (by decide)

/-- C2: when, on some poll tick before the deadline, the log holds a line
carrying the chosen base URL with no error-marker line before it on that
tick, and every earlier tick saw only an earlier portion of that log, the
function returns the success message carrying exactly that URL, whatever
unrelated lines the file also holds. -/
theorem c2_url_line_gives_success (env : Env) (name secrets : String) (p : Nat)
    (pre : List String) (line : String) (post : List String)
    (snaps1 snaps2 : List (Option (List String)))
    (hex : env.pathExists = true)
    (hport : find_available_port env.portFree env.portFuel 8080 = some p)
    (hsnaps : env.logSnapshots = snaps1 ++ some (pre ++ line :: post) :: snaps2)
    (hline : strHasSub line ("http://localhost:" ++ toString p) = true)
    (hpre : ∀ l ∈ pre, strHasSub l errorMarker = false)
    (hearly : ∀ L, some L ∈ snaps1 → ∃ rest, pre ++ line :: post = L ++ rest) :
    start_action_server env name secrets =
      some (successMessage ("http://localhost:" ++ toString p),
        [Event.spawn [env.pyExecutable, joinPath env.scriptDir "start_action_server.py",
          get_action_package_path env.home name, toString p, secrets]]) := by
  have hpoll : pollForServer ("http://localhost:" ++ toString p) env.stdoutContent
      env.stderrContent env.logSnapshots =
      (successMessage ("http://localhost:" ++ toString p), []) := by
    rw [hsnaps]
    exact pollForServer_success _ _ _ _ snaps1 snaps2
      (scanLogLines_urlHit _ pre line post hline hpre)
      (fun l' hl' => by
        obtain ⟨rest, hr⟩ := hearly l' hl'
        exact scanLogLines_early_not_errHit _ pre line post hline hpre l' rest hr)
  simp only [start_action_server, hex, if_true, hport, hpoll]

/-- C2 witness: the second tick's log ends in a line carrying the URL. -/
theorem c2_url_line_gives_success_witness :
    start_action_server sampleEnvUrl "pkg" "{}" =
      some (successMessage "http://localhost:8080",
        [Event.spawn ["python", "/srv/start_action_server.py",
          "/home/u/actions_bootstrapper/pkg", "8080", "{}"]]) := by
  have h := c2_url_line_gives_success sampleEnvUrl "pkg" "{}" 8080
    ["boot"] "Action Server at http://localhost:8080" [] [none] []
    rfl (by decide) rfl (by decide) (by decide)
    (by intro L hL; simp at hL)
  exact h.trans (by decide)

/-- C3: when a log line carrying the error marker appears with no URL line
at or before it on that tick, and every earlier tick saw only an earlier
portion of that log, the function returns the failure message embedding the
captured stdout and stderr — and never the success message, even though a
URL line appears later in the same file. -/
theorem c3_error_line_gives_failure (env : Env) (name secrets : String) (p : Nat)
    (pre : List String) (line : String) (post : List String)
    (snaps1 snaps2 : List (Option (List String)))
    (hex : env.pathExists = true)
    (hport : find_available_port env.portFree env.portFuel 8080 = some p)
    (hsnaps : env.logSnapshots = snaps1 ++ some (pre ++ line :: post) :: snaps2)
    (herr : strHasSub line errorMarker = true)
    (hnu : strHasSub line ("http://localhost:" ++ toString p) = false)
    (hpre : ∀ l ∈ pre, strHasSub l ("http://localhost:" ++ toString p) = false)
    (hearly : ∀ L, some L ∈ snaps1 → ∃ rest, pre ++ line :: post = L ++ rest) :
    start_action_server env name secrets =
      some (failedMessage env.stdoutContent env.stderrContent,
        [Event.spawn [env.pyExecutable, joinPath env.scriptDir "start_action_server.py",
          get_action_package_path env.home name, toString p, secrets]]) := by
  have hpoll : pollForServer ("http://localhost:" ++ toString p) env.stdoutContent
      env.stderrContent env.logSnapshots =
      (failedMessage env.stdoutContent env.stderrContent, []) := by
    rw [hsnaps]
    exact pollForServer_failed _ _ _ _ snaps1 snaps2
      (scanLogLines_errHit _ pre line post herr hnu hpre)
      (fun l' hl' => by
        obtain ⟨rest, hr⟩ := hearly l' hl'
        exact scanLogLines_early_not_urlHit _ pre line post herr hnu hpre l' rest hr)
  simp only [start_action_server, hex, if_true, hport, hpoll]

/-- C3 witness: the error marker arrives on the second tick, a URL line
sits after it in the same file, and the failure message is returned. -/
theorem c3_error_line_gives_failure_witness :
    start_action_server sampleEnvErr "pkg" "{}" =
      some ("Failed to start.\n\nStdout:\nso\n\nStderr:\nse",
        [Event.spawn ["python", "/srv/start_action_server.py",
          "/home/u/actions_bootstrapper/pkg", "8080", "{}"]]) := by
  have h := c3_error_line_gives_failure sampleEnvErr "pkg" "{}" 8080
    ["boot"] "Error executing action-server"
    ["Action Server at http://localhost:8080"] [some ["boot"]] []
    rfl (by decide) rfl (by decide) (by decide) (by decide)
    (by
      intro L hL
      simp at hL
      subst hL
      exact ⟨["Error executing action-server",
        "Action Server at http://localhost:8080"], rfl⟩)
  exact h.trans (by decide)

/-- C4: when no tick before the deadline shows either marker, the function
returns the timeout message embedding the captured stdout and stderr, and
the event trace holds exactly one shutdown request, against the candidate
URL, issued before returning. -/
theorem c4_timeout_one_stop (env : Env) (name secrets : String) (p : Nat)
    (hex : env.pathExists = true)
    (hport : find_available_port env.portFree env.portFuel 8080 = some p)
    (hquiet : ∀ L, some L ∈ env.logSnapshots → ∀ l ∈ L,
      strHasSub l ("http://localhost:" ++ toString p) = false ∧
      strHasSub l errorMarker = false) :
    start_action_server env name secrets =
      some (timeoutMessage env.stdoutContent env.stderrContent,
        [Event.spawn [env.pyExecutable, joinPath env.scriptDir "start_action_server.py",
          get_action_package_path env.home name, toString p, secrets],
          Event.stopRequest ("http://localhost:" ++ toString p)]) := by
  have hpoll := pollForServer_timeout ("http://localhost:" ++ toString p)
    env.stdoutContent env.stderrContent env.logSnapshots
    (fun L hL => scanLogLines_noHit _ L (hquiet L hL))
  simp only [start_action_server, hex, if_true, hport, hpoll]

/-- C4 witness: a log that never shows a marker; the trace ends with the
single shutdown request. -/
theorem c4_timeout_one_stop_witness :
    start_action_server sampleEnvQuiet "pkg" "{}" =
      some ("Process timed out.\n\nStdout:\nso\n\nStderr:\nse",
        [Event.spawn ["python", "/srv/start_action_server.py",
          "/home/u/actions_bootstrapper/pkg", "8080", "{}"],
          Event.stopRequest "http://localhost:8080"]) := by
  have h := c4_timeout_one_stop sampleEnvQuiet "pkg" "{}" 8080
    rfl (by decide)
    (by
      intro L hL
      simp [sampleEnvQuiet] at hL
      subst hL
      intro l hl
      simp at hl
      subst hl
      exact ⟨by decide, by decide⟩)
  exact h.trans (by decide)

/-- C5: the fuelled port scan returns the smallest bindable port at or above
the start: the returned port is at least the start, free, every port between
the start and it is bound; a free start port is returned itself, and a bound
start port forces a strictly greater result. -/
theorem c5_port_allocator_least (free : Nat → Bool) (fuel start d : Nat)
    (hd : d < fuel) (hfree : free (start + d) = true) :
    ∃ q, find_available_port free fuel start = some q ∧ start ≤ q ∧
      free q = true ∧ (∀ p, start ≤ p → p < q → free p = false) ∧
      (free start = true → q = start) ∧ (free start = false → start < q) := by
  obtain ⟨q, hq⟩ := find_available_port_complete free fuel start d hd hfree
  obtain ⟨h1, h2, h3⟩ := find_available_port_sound free fuel start q hq
  refine ⟨q, hq, h1, h2, h3, ?_, ?_⟩
  · intro hs
    by_contra hne
    have hlt : start < q := lt_of_le_of_ne h1 (Ne.symm hne)
    have hc := h3 start (le_refl _) hlt
    rw [hs] at hc
    exact absurd hc (by simp)
  · intro hs
    rcases Nat.eq_or_lt_of_le h1 with he | hl
    · rw [← he] at h2
      rw [hs] at h2
      exact absurd h2 Bool.false_ne_true
    · exact hl

/-- C5 witness: ports 8080 and 8081 bound, 8082 free. -/
theorem c5_port_allocator_least_witness :
    ∃ q, find_available_port (fun p => p == 8082) 3 8080 = some q ∧ 8080 ≤ q ∧
      ((fun p => p == 8082) q = true) ∧
      (∀ p, 8080 ≤ p → p < q → (fun p => p == 8082) p = false) ∧
      ((fun p => p == 8082) 8080 = true → q = 8080) ∧
      ((fun p => p == 8082) 8080 = false → 8080 < q) :=
  c5_port_allocator_least (fun p => p == 8082) 3 8080 2 (by decide) (by decide)

/-- C6: the port scan terminates exactly when some port at or above the
start is free: a free port yields a fuel under which the scan returns, and
when every port from the start on is bound, no fuel makes it return — the
source loop runs forever. -/
theorem c6_port_scan_terminates_iff (free : Nat → Bool) (start : Nat) :
    ((∃ p, start ≤ p ∧ free p = true) ↔
      (∃ fuel q, find_available_port free fuel start = some q)) ∧
    ((∀ p, start ≤ p → free p = false) →
      ∀ fuel, find_available_port free fuel start = none) := by
  constructor
  · constructor
    · rintro ⟨p, hp, hfree⟩
      obtain ⟨q, hq⟩ := find_available_port_complete free (p - start + 1) start (p - start)
        (by omega) (by rw [show start + (p - start) = p by omega]; exact hfree)
      exact ⟨p - start + 1, q, hq⟩
    · rintro ⟨fuel, q, hq⟩
      obtain ⟨h1, h2, -⟩ := find_available_port_sound free fuel start q hq
      exact ⟨q, h1, h2⟩
  · intro h fuel
    exact find_available_port_stuck free fuel start h

/-- C7: the shutdown client maps a connection failure to the
could-not-connect message without letting it escape, HTTP 200 to the success
message, and any other status to the failure message. -/
theorem c7_stop_server_messages (net : String → NetOutcome) (url : String) :
    (net (url ++ "/api/shutdown") = NetOutcome.connectionFailure →
      stop_action_server net url = "Could not connect to the server") ∧
    (∀ text, net (url ++ "/api/shutdown") = NetOutcome.httpResponse 200 text →
      stop_action_server net url = "Successfully shutdown the action server") ∧
    (∀ code text, code ≠ 200 →
      net (url ++ "/api/shutdown") = NetOutcome.httpResponse code text →
      stop_action_server net url = "Failed to stop the action server") := by
  refine ⟨?_, ?_, ?_⟩
  · intro h
    simp [stop_action_server, h]
  · intro text h
    simp [stop_action_server, h]
  · intro code text hc h
    simp [stop_action_server, h, hc]

/-- C8: with an existing package directory and a port found, the spawned
command is exactly the interpreter, the helper script, and then three
positional arguments in order: the package directory, the port rendered in
decimal, and the secrets string passed through unchanged. -/
theorem c8_spawn_argv (env : Env) (name secrets : String) (p : Nat)
    (hex : env.pathExists = true)
    (hport : find_available_port env.portFree env.portFuel 8080 = some p) :
    ∃ msg evs, start_action_server env name secrets =
      some (msg, Event.spawn [env.pyExecutable,
        joinPath env.scriptDir "start_action_server.py",
        get_action_package_path env.home name, toString p, secrets] :: evs) := by
  simp only [start_action_server, hex, if_true, hport]
  exact ⟨_, _, rfl⟩

/-- C8 witness: a concrete run whose spawn argv is fully evaluated. -/
theorem c8_spawn_argv_witness :
    ∃ msg evs, start_action_server sampleEnvReady "pkg" "\x7bkey\x7d" =
      some (msg, Event.spawn ["python", "/srv/start_action_server.py",
        "/home/u/actions_bootstrapper/pkg", "8080", "\x7bkey\x7d"] :: evs) := by
  obtain ⟨msg, evs, h⟩ := c8_spawn_argv sampleEnvReady "pkg" "\x7bkey\x7d" 8080 rfl (by decide)
  have hargs : [sampleEnvReady.pyExecutable,
      joinPath sampleEnvReady.scriptDir "start_action_server.py",
      get_action_package_path sampleEnvReady.home "pkg", toString 8080, "\x7bkey\x7d"] =
      ["python", "/srv/start_action_server.py",
        "/home/u/actions_bootstrapper/pkg", "8080", "\x7bkey\x7d"] := by decide
  rw [hargs] at h
  exact ⟨msg, evs, h⟩

/-- C9: inside a single log line holding both the URL and the error marker,
the URL check runs first, so the poller returns the success message: success
takes precedence over failure at line granularity. -/
theorem c9_url_beats_error_in_one_line (url so se line : String)
    (rest : List String) (hurl : strHasSub line url = true)
    (_herr : strHasSub line errorMarker = true) :
    pollForServer url so se [some (line :: rest)] = (successMessage url, []) := by
  simp [pollForServer, scanLogLines, hurl]

/-- C9 witness: a line holding the error marker and the URL at once. -/
theorem c9_url_beats_error_in_one_line_witness :
    pollForServer "http://localhost:8080" "" "" [some ["Error executing action-server at http://localhost:8080"]] =
      (successMessage "http://localhost:8080", []) :=
  c9_url_beats_error_in_one_line "http://localhost:8080" "" ""
    "Error executing action-server at http://localhost:8080" [] (by decide) (by decide)

/-- C10: `run_shell_command` never lets the CalledProcessError escape: for
every completed process, even one whose non-zero code makes
`check_returncode` raise, the returned Response carries the combined stdout
and stderr as its result and no error. -/
theorem c10_shell_command_never_raises (res : CompletedProcess) :
    run_shell_command res = { result := some (combinedOutput res), error := none } ∧
    (res.returncode ≠ 0 → check_returncode res = Except.error "CalledProcessError") := by
  constructor
  · cases h : check_returncode res <;> simp [run_shell_command, h]
  · intro h
    simp [check_returncode, h]

end ActionsBootstrapper
